import Mathlib

/-!
Shallow embedding of `src/backend/controllers/product.js`, a product CRUD
controller (Express + Sequelize + multer + Cloudinary middleware + uuid +
express-validator).

Modelling conventions:
* Multipart body fields are strings; an `Option String` field is `none`
  when the field is absent from the request body.
* `req.file` (set by the multer local-disk upload) is modelled by the
  filename it carries; `req.cloudinaryUrl` (set by the cloud middleware)
  is an `Option String`.
* JavaScript falsiness of strings (`""` is falsy) is modelled explicitly
  where the source uses a truthiness test (`req.cloudinaryUrl || null`,
  `if (updatedData.name)`).
* The Sequelize store is modelled as a `List ProductRecord`; fallible
  store calls take an `Option String` which, when `some msg`, stands for
  the store throwing an error with message `msg` at that call site.
* Timestamps (`new Date()`, the store's `createdAt` bookkeeping column)
  are natural numbers supplied by the caller.
-/

/-- JavaScript `String.prototype.toLowerCase` (ASCII range), i.e.
`String.toLower`: lower-case every character.  Stated over the
character list so that concrete instances evaluate by structural
recursion. -/
def jsToLowerCase (s : String) : String :=
  ⟨s.data.map Char.toLower⟩

/-- One element of `validationResult(req).errors.array()`:
the failing field's path and the configured `withMessage` text. -/
structure FieldError where
  path : String
  msg : String
deriving Repr, DecidableEq

/-- A persisted product row.  `id`, `name`, `price`, `productImage`,
`expiryDate` are the model attributes used by the controller; `createdAt`
is the store-maintained bookkeeping timestamp (assigned by the store at
creation); `otherFields` holds any further body fields that the create
handler spreads verbatim into the record (`...req.body`). -/
structure ProductRecord where
  id : String
  name : String
  price : Option String
  productImage : Option String
  expiryDate : Nat
  createdAt : Nat
  otherFields : List (String × String)
deriving Repr, DecidableEq

/-- validator.js `isNumeric` (default options), as used by
`body('price').isNumeric()`: the string must match
`^[+-]?([0-9]*[.])?[0-9]+$`. -/
def isNumericStr (s : String) : Bool :=
  let cs := s.toList
  let cs := match cs with
    | c :: rest => if c = '+' ∨ c = '-' then rest else c :: rest
    | [] => []
  let pre := cs.takeWhile Char.isDigit
  let rest := cs.dropWhile Char.isDigit
  match rest with
  | [] => !pre.isEmpty
  | '.' :: tail => !tail.isEmpty && tail.all Char.isDigit
  | _ => false

/-- `body('name').notEmpty()`: express-validator coerces an absent field
to the empty string, and `notEmpty` fails exactly on the empty string. -/
def nameNotEmpty (name : Option String) : Bool :=
  match name with
  | some s => s ≠ ""
  | none => false

/-- `body('price').isNumeric()`: an absent field is coerced to the empty
string, which fails the numeric test. -/
def priceIsNumeric (price : Option String) : Bool :=
  match price with
  | some s => isNumericStr s
  | none => false

/-- The create-mode validation chain, in middleware order
(`name` first, then `price`), producing `errors.array()`. -/
def validateCreate (name price : Option String) : List FieldError :=
  (if nameNotEmpty name then [] else [⟨"name", "Nome é obrigatório"⟩])
    ++ (if priceIsNumeric price then [] else [⟨"price", "O preço deve ser numérico"⟩])

/-- The update-mode validation chain:
`body('name').optional().notEmpty()` and
`body('price').optional().isNumeric()` — each rule is skipped when the
field is absent from the payload. -/
def validateUpdate (name price : Option String) : List FieldError :=
  (match name with
    | some s => if s ≠ "" then [] else [⟨"name", "Nome não pode estar vazio"⟩]
    | none => [])
    ++ (match price with
    | some s => if isNumericStr s then [] else [⟨"price", "O preço deve ser numérico"⟩]
    | none => [])

/-- Line 32 of the controller:
`const productImage = req.file ? req.file.filename : req.cloudinaryUrl || null;`
If a local file result is present its filename wins; otherwise the
cloudinary URL is used unless it is falsy (absent or the empty string),
in which case the result is `null`. -/
def resolveProductImage (file : Option String) (cloudinaryUrl : Option String) :
    Option String :=
  match file with
  | some filename => some filename
  | none =>
    match cloudinaryUrl with
    | some url => if url = "" then none else some url
    | none => none

/-- The request reaching the create handler after the upload middlewares
ran: the body fields (`name`, `price`, a client-supplied `id` or
`productImage` if any, and arbitrary further fields), plus `req.file`
and `req.cloudinaryUrl`. -/
structure CreateRequest where
  name : Option String
  price : Option String
  bodyId : Option String
  bodyProductImage : Option String
  otherFields : List (String × String)
  file : Option String
  cloudinaryUrl : Option String
deriving Repr, DecidableEq

/-- Outcome of the create handler. -/
inductive CreateResponse where
  | badRequest (errors : List FieldError)
  | created (product : ProductRecord)
  | serverError (message : String)
deriving Repr, DecidableEq

/-- HTTP status the create handler sends with each outcome. -/
def CreateResponse.status : CreateResponse → Nat
  | .badRequest _ => 400
  | .created _ => 201
  | .serverError _ => 500

/-- The `productImage` of the created record, when the outcome is `created`. -/
def CreateResponse.image : CreateResponse → Option String
  | .created p => p.productImage
  | _ => none

/-- The record carried by a `created` outcome. -/
def CreateResponse.record? : CreateResponse → Option ProductRecord
  | .created p => some p
  | _ => none

/-- `createProduct` (the final async handler, after the validation
chains): check `validationResult`; on failure answer 400 with the error
array and touch nothing.  Otherwise build `transformedData =
{...req.body, id: uuidv4(), name: req.body.name.toLowerCase(),
productImage, expiryDate: new Date()}` and call `Product.create`.
`freshId` stands for the `uuidv4()` result, `now` for `new Date()` (the
store stamps `createdAt` with the same clock).  `createFails = some msg`
means `Product.create` throws, answered with 500 and the message.
Returns the response together with the store after the call. -/
def createProduct (req : CreateRequest) (freshId : String) (now : Nat)
    (store : List ProductRecord) (createFails : Option String) :
    CreateResponse × List ProductRecord :=
  let errors := validateCreate req.name req.price
  if errors ≠ [] then
    (.badRequest errors, store)
  else
    let productImage := resolveProductImage req.file req.cloudinaryUrl
    let transformedData : ProductRecord :=
      { id := freshId
        name := jsToLowerCase (req.name.getD "")
        price := req.price
        productImage := productImage
        expiryDate := now
        createdAt := now
        otherFields := req.otherFields }
    match createFails with
    | some msg => (.serverError msg, store)
    | none => (.created transformedData, store ++ [transformedData])

/-- Outcome of the list handler. -/
inductive ListResponse where
  | ok (products : List ProductRecord)
  | serverError (message : String)
deriving Repr, DecidableEq

/-- HTTP status the list handler sends with each outcome. -/
def ListResponse.status : ListResponse → Nat
  | .ok _ => 200
  | .serverError _ => 500

/-- Row order requested by
`Product.findAll({ order: [['createdAt', 'DESC']] })`:
newest `createdAt` first. -/
def byCreatedAtDesc (a b : ProductRecord) : Prop :=
  b.createdAt ≤ a.createdAt

instance : DecidableRel byCreatedAtDesc :=
  fun a b => Nat.decLe b.createdAt a.createdAt

instance : IsTotal ProductRecord byCreatedAtDesc :=
  ⟨fun a b => Nat.le_total b.createdAt a.createdAt⟩

instance : IsTrans ProductRecord byCreatedAtDesc :=
  ⟨fun _ _ _ h₁ h₂ => Nat.le_trans h₂ h₁⟩

/-- `getAllProducts`: `Product.findAll({ order: [['createdAt', 'DESC']] })`,
modelled as the store's rows sorted by `createdAt` descending (the order
the SQL engine returns for that query); answered with 200, or with 500
and `error.message` when the store call throws. -/
def getAllProducts (store : List ProductRecord) (findFails : Option String) :
    ListResponse :=
  match findFails with
  | some msg => .serverError msg
  | none => .ok (store.insertionSort byCreatedAtDesc)

/-- Outcome of the get-by-id handler. -/
inductive GetResponse where
  | ok (product : ProductRecord)
  | notFound (message : String)
  | serverError (message : String)
deriving Repr, DecidableEq

/-- HTTP status the get-by-id handler sends with each outcome. -/
def GetResponse.status : GetResponse → Nat
  | .ok _ => 200
  | .notFound _ => 404
  | .serverError _ => 500

/-- `getProductById`: `Product.findOne({ where: { id } })`; found rows are
answered with 200, absence with a distinct 404 text, a throwing store
call with 500 and `error.message`. -/
def getProductById (id : String) (store : List ProductRecord)
    (findFails : Option String) : GetResponse :=
  match findFails with
  | some msg => .serverError msg
  | none =>
    match store.find? (fun p => p.id = id) with
    | some product => .ok product
    | none => .notFound "Product with the specified ID does not exist"

/-- The body reaching the update handler: `name`, `price`, a
client-supplied `id` or `productImage` if any, and arbitrary further
fields.  There is no upload middleware on the update route, so there is
no `req.file` / `req.cloudinaryUrl`. -/
structure UpdateRequest where
  name : Option String
  price : Option String
  bodyId : Option String
  bodyProductImage : Option String
  otherFields : List (String × String)
deriving Repr, DecidableEq

/-- Outcome of the update handler. -/
inductive UpdateResponse where
  | badRequest (errors : List FieldError)
  | ok (product : ProductRecord)
  | notFound (message : String)
  | serverError (message : String)
deriving Repr, DecidableEq

/-- HTTP status the update handler sends with each outcome. -/
def UpdateResponse.status : UpdateResponse → Nat
  | .badRequest _ => 400
  | .ok _ => 200
  | .notFound _ => 404
  | .serverError _ => 500

/-- The record carried by an `ok` outcome of the update handler. -/
def UpdateResponse.record? : UpdateResponse → Option ProductRecord
  | .ok p => some p
  | _ => none

/-- Lines 112–115 of the controller: `const updatedData = req.body;
if (updatedData.name) { updatedData.name = updatedData.name.toLowerCase(); }`
— only a truthy (present, non-empty) `name` is lower-cased; every other
field is left exactly as submitted. -/
def transformUpdateData (req : UpdateRequest) : UpdateRequest :=
  { req with
    name := match req.name with
      | some s => if s ≠ "" then some (jsToLowerCase s) else some s
      | none => none }

/-- Overwrite-or-append one body field into the record's pass-through
field list. -/
def setField (fields : List (String × String)) (kv : String × String) :
    List (String × String) :=
  if fields.any (fun f => f.1 = kv.1) then
    fields.map (fun f => if f.1 = kv.1 then kv else f)
  else
    fields ++ [kv]

/-- Look up a pass-through body field by key (first occurrence). -/
def lookupField (fields : List (String × String)) (key : String) :
    Option String :=
  (fields.find? (fun f => f.1 = key)).map Prod.snd

/-- Modelled from the spec: the ProductStore collaborator (the Sequelize
`Product` model, which lives outside `src/`) offers update-by-key
semantics — `product.update(updatedData)` replaces exactly the fields
explicitly present in the payload and leaves every other field of the
row untouched; the key (`id`) and the store/creation bookkeeping columns
(`expiryDate`, `createdAt`) identify the row and are not reassigned. -/
def applyUpdate (p : ProductRecord) (u : UpdateRequest) : ProductRecord :=
  { p with
    name := u.name.getD p.name
    price := match u.price with
      | some v => some v
      | none => p.price
    productImage := match u.bodyProductImage with
      | some v => some v
      | none => p.productImage
    otherFields := u.otherFields.foldl setField p.otherFields }

/-- `updateProductById` (the final async handler, after the optional
validation chains): check `validationResult`; on failure answer 400.
Otherwise `findOne` by the path id — absent rows are answered with a 404
text; found rows are updated with the transformed body and answered with
200 and the updated record.  `storeFails = some msg` models a throwing
store call inside the `try`, answered with 500 and `error.message`.
Returns the response together with the store after the call. -/
def updateProductById (id : String) (req : UpdateRequest)
    (store : List ProductRecord) (storeFails : Option String) :
    UpdateResponse × List ProductRecord :=
  let errors := validateUpdate req.name req.price
  if errors ≠ [] then
    (.badRequest errors, store)
  else
    match storeFails with
    | some msg => (.serverError msg, store)
    | none =>
      match store.find? (fun p => p.id = id) with
      | none => (.notFound "Product not found", store)
      | some product =>
        let updatedData := transformUpdateData req
        let updated := applyUpdate product updatedData
        (.ok updated, store.map (fun q => if q.id = id then updated else q))

/-- Outcome of the delete handler. -/
inductive DeleteResponse where
  | noContent (message : String)
  | serverError (message : String)
deriving Repr, DecidableEq

/-- HTTP status the delete handler sends with each outcome. -/
def DeleteResponse.status : DeleteResponse → Nat
  | .noContent _ => 204
  | .serverError _ => 500

/-- `deleteProductById`: `Product.destroy({ where: { id } })` returns the
number of destroyed rows; a non-zero count is answered with 204, a zero
count throws `new Error('Product not found')`, which the `catch` —
shared with a throwing store call (`destroyFails`) — answers with 500
and `error.message`.  Returns the response together with the store after
the call. -/
def deleteProductById (id : String) (store : List ProductRecord)
    (destroyFails : Option String) : DeleteResponse × List ProductRecord :=
  match destroyFails with
  | some msg => (.serverError msg, store)
  | none =>
    let deletedProduct := store.countP (fun p => p.id = id)
    let remaining := store.filter (fun p => ¬ p.id = id)
    if deletedProduct ≠ 0 then
      (.noContent "Product deleted successfully", remaining)
    else
      (.serverError "Product not found", store)

/-- C1 counterexample: with both a local file result (`img-local.png`)
and a cloud-derived URL available, the created record's `productImage`
is the LOCAL filename, not the cloud URL — the claimed cloud-first
precedence fails on the code
(`req.file ? req.file.filename : req.cloudinaryUrl || null`). -/
theorem createProduct_cloud_precedence_cex :
    (createProduct
        ⟨some "Chair", some "49.99", none, none, [],
          some "img-local.png", some "https://res.example.com/img.png"⟩
        "fresh-1" 7 [] none).1.image = some "img-local.png" ∧
    (createProduct
        ⟨some "Chair", some "49.99", none, none, [],
          some "img-local.png", some "https://res.example.com/img.png"⟩
        "fresh-1" 7 [] none).1.image ≠ some "https://res.example.com/img.png" := by
  decide

/-- C1 (amended): the fallback order for `productImage` is local
filename first, else the cloud URL (an empty cloud URL counts as none),
else none. -/
theorem createProduct_image_fallback_order (req : CreateRequest)
    (freshId : String) (now : Nat) (store : List ProductRecord)
    (hv : validateCreate req.name req.price = []) :
    (∀ fn, req.file = some fn →
      (createProduct req freshId now store none).1.image = some fn) ∧
    (∀ url, req.file = none → req.cloudinaryUrl = some url → url ≠ "" →
      (createProduct req freshId now store none).1.image = some url) ∧
    (req.file = none → req.cloudinaryUrl = none →
      (createProduct req freshId now store none).1.image = none) ∧
    (req.file = none → req.cloudinaryUrl = some "" →
      (createProduct req freshId now store none).1.image = none) := by
  refine ⟨?_, ?_, ?_, ?_⟩
  · intro fn hf
    simp [createProduct, hv, hf, resolveProductImage, CreateResponse.image]
  · intro url hf hc hne
    simp [createProduct, hv, hf, hc, hne, resolveProductImage, CreateResponse.image]
  · intro hf hc
    simp [createProduct, hv, hf, hc, resolveProductImage, CreateResponse.image]
  · intro hf hc
    simp [createProduct, hv, hf, hc, resolveProductImage, CreateResponse.image]

/-- Witness for `createProduct_image_fallback_order` at concrete inputs. -/
theorem createProduct_image_fallback_order_witness :
    (createProduct ⟨some "Chair", some "49.99", none, none, [], some "img.png", none⟩
        "f1" 0 [] none).1.image = some "img.png" :=
  (createProduct_image_fallback_order
      ⟨some "Chair", some "49.99", none, none, [], some "img.png", none⟩
      "f1" 0 [] (by decide)).1 "img.png" rfl

/-- C2: an input whose name is missing/empty or whose price fails the
numeric test is answered with 400 and the validation error list, and the
store is untouched (`Product.create` is never reached, whatever it would
have done). -/
theorem createProduct_invalid_no_store_write (req : CreateRequest)
    (freshId : String) (now : Nat) (store : List ProductRecord)
    (createFails : Option String)
    (h : req.name.getD "" = "" ∨ isNumericStr (req.price.getD "") = false) :
    (createProduct req freshId now store createFails).1
        = .badRequest (validateCreate req.name req.price) ∧
    validateCreate req.name req.price ≠ [] ∧
    (createProduct req freshId now store createFails).1.status = 400 ∧
    (createProduct req freshId now store createFails).2 = store := by
  have hne : validateCreate req.name req.price ≠ [] := by
    rcases h with h | h
    · match hn : req.name with
      | none => simp [validateCreate, nameNotEmpty]
      | some s =>
        have hs : s = "" := by simpa [hn] using h
        simp [validateCreate, nameNotEmpty, hs]
    · match hp : req.price with
      | none => simp [validateCreate, priceIsNumeric]
      | some s =>
        have hs : isNumericStr s = false := by simpa [hp] using h
        simp [validateCreate, priceIsNumeric, hs]
  refine ⟨?_, hne, ?_, ?_⟩ <;>
    simp [createProduct, hne, CreateResponse.status]

/-- Witness for `createProduct_invalid_no_store_write`: a request with no
name and a non-numeric price. -/
theorem createProduct_invalid_no_store_write_witness :
    (createProduct ⟨none, some "abc", none, none, [], none, none⟩
        "f1" 0 [] none).1
      = .badRequest (validateCreate none (some "abc")) ∧
    validateCreate none (some "abc") ≠ [] ∧
    (createProduct ⟨none, some "abc", none, none, [], none, none⟩
        "f1" 0 [] none).1.status = 400 ∧
    (createProduct ⟨none, some "abc", none, none, [], none, none⟩
        "f1" 0 [] none).2 = [] :=
  createProduct_invalid_no_store_write
    ⟨none, some "abc", none, none, [], none, none⟩ "f1" 0 [] none (Or.inl rfl)

/-- C3: every valid input is persisted with the freshly generated id (a
client-supplied body id is ignored and overridden), the lower-cased
name, the resolved image, and `expiryDate` stamped to the current time;
on store success the handler answers 201 with the created record. -/
theorem createProduct_valid_creates (req : CreateRequest) (freshId : String)
    (now : Nat) (store : List ProductRecord)
    (hv : validateCreate req.name req.price = []) :
    (createProduct req freshId now store none).1 =
      .created { id := freshId, name := jsToLowerCase (req.name.getD ""),
                 price := req.price,
                 productImage := resolveProductImage req.file req.cloudinaryUrl,
                 expiryDate := now, createdAt := now,
                 otherFields := req.otherFields } ∧
    (createProduct req freshId now store none).1.status = 201 ∧
    (createProduct req freshId now store none).2 =
      store ++ [{ id := freshId, name := jsToLowerCase (req.name.getD ""),
                  price := req.price,
                  productImage := resolveProductImage req.file req.cloudinaryUrl,
                  expiryDate := now, createdAt := now,
                  otherFields := req.otherFields }] ∧
    (∀ clientId, (createProduct { req with bodyId := some clientId }
        freshId now store none).1
      = (createProduct req freshId now store none).1) := by
  refine ⟨?_, ?_, ?_, fun clientId => ?_⟩ <;>
    simp [createProduct, hv, CreateResponse.status]

/-- Witness for `createProduct_valid_creates` at the spec's example
input. -/
theorem createProduct_valid_creates_witness :
    (createProduct ⟨some "Chair", some "49.99", some "evil-id", none, [], none, none⟩
        "gen-1" 5 [] none).1
      = .created ⟨"gen-1", "chair", some "49.99", none, 5, 5, []⟩ :=
  ((createProduct_valid_creates
      ⟨some "Chair", some "49.99", some "evil-id", none, [], none, none⟩
      "gen-1" 5 [] (by decide)).1).trans (by decide)

/-- C8: a valid create with no uploaded file and no cloud URL persists a
record whose `productImage` field is explicitly null, with `price` and
every other submitted field copied through unchanged. -/
theorem createProduct_no_image_null (req : CreateRequest) (freshId : String)
    (now : Nat) (store : List ProductRecord)
    (hv : validateCreate req.name req.price = [])
    (hf : req.file = none) (hc : req.cloudinaryUrl = none) :
    (createProduct req freshId now store none).1 =
      .created { id := freshId, name := jsToLowerCase (req.name.getD ""),
                 price := req.price, productImage := none,
                 expiryDate := now, createdAt := now,
                 otherFields := req.otherFields } := by
  simp [createProduct, hv, hf, hc, resolveProductImage]

/-- Witness for `createProduct_no_image_null` at the spec's example
input `{name: "Chair", price: "49.99"}` with no file. -/
theorem createProduct_no_image_null_witness :
    (createProduct ⟨some "Chair", some "49.99", none, none, [("color", "red")], none, none⟩
        "gen-2" 9 [] none).1
      = .created ⟨"gen-2", "chair", some "49.99", none, 9, 9, [("color", "red")]⟩ :=
  (createProduct_no_image_null
      ⟨some "Chair", some "49.99", none, none, [("color", "red")], none, none⟩
      "gen-2" 9 [] (by decide) rfl rfl).trans (by decide)

/-- C10: the create handler never persists a client-submitted
`productImage` body field — the whole outcome is independent of it, and
the persisted `productImage` is exactly the reference resolved from the
upload pipeline, while the remaining body fields are spread through
verbatim. -/
theorem createProduct_body_image_ignored (req : CreateRequest)
    (freshId : String) (now : Nat) (store : List ProductRecord)
    (createFails : Option String) (bp : Option String)
    (hv : validateCreate req.name req.price = []) :
    createProduct { req with bodyProductImage := bp } freshId now store createFails
        = createProduct req freshId now store createFails ∧
    (createProduct req freshId now store none).1.image
        = resolveProductImage req.file req.cloudinaryUrl ∧
    ((createProduct req freshId now store none).1.record?.map
        (fun r => r.otherFields)) = some req.otherFields := by
  refine ⟨rfl, ?_, ?_⟩ <;>
    simp [createProduct, hv, CreateResponse.image, CreateResponse.record?]

/-- Witness for `createProduct_body_image_ignored`: a client-submitted
`productImage` body field is dropped in favor of the resolved `none`. -/
theorem createProduct_body_image_ignored_witness :
    createProduct ⟨some "Chair", some "1", none, some "spoofed.png", [], none, none⟩
        "g" 0 [] none
      = createProduct ⟨some "Chair", some "1", none, none, [], none, none⟩
        "g" 0 [] none ∧
    (createProduct ⟨some "Chair", some "1", none, none, [], none, none⟩
        "g" 0 [] none).1.image = resolveProductImage none none ∧
    ((createProduct ⟨some "Chair", some "1", none, none, [], none, none⟩
        "g" 0 [] none).1.record?.map (fun r => r.otherFields)) = some [] :=
  createProduct_body_image_ignored
    ⟨some "Chair", some "1", none, none, [], none, none⟩
    "g" 0 [] none (some "spoofed.png") (by decide)

/-- Overwriting the entries keyed `k` in a field list makes `(k, v)` the
first find for `k`, provided some entry keyed `k` exists. -/
theorem find?_map_setField_same (k v : String) :
    ∀ fields : List (String × String), fields.any (fun f => f.1 = k) = true →
      (fields.map (fun f => if f.1 = k then (k, v) else f)).find? (fun f => f.1 = k)
        = some (k, v) := by
  intro fields
  induction fields with
  | nil => intro h; simp at h
  | cons f fs ih =>
    intro h
    by_cases hf : f.1 = k
    · rw [List.map_cons, if_pos hf, List.find?_cons_of_pos _ (by simp)]
    · have hfs : fs.any (fun f => f.1 = k) = true := by
        simpa [List.any_cons, hf] using h
      rw [List.map_cons, if_neg hf, List.find?_cons_of_neg _ (by simp [hf]), ih hfs]

/-- Overwriting the entries keyed `k` leaves the find for any other key
unchanged. -/
theorem find?_map_setField_other (k v key : String) (hk : ¬ key = k) :
    ∀ fields : List (String × String),
      (fields.map (fun f => if f.1 = k then (k, v) else f)).find? (fun f => f.1 = key)
        = fields.find? (fun f => f.1 = key) := by
  have hk' : ¬ k = key := fun h => hk h.symm
  intro fields
  induction fields with
  | nil => rfl
  | cons f fs ih =>
    by_cases hf : f.1 = k
    · rw [List.map_cons, if_pos hf,
        List.find?_cons_of_neg _ (by simp [hk']),
        List.find?_cons_of_neg _ (by simp [hf, hk']), ih]
    · rw [List.map_cons, if_neg hf]
      by_cases hfk : f.1 = key
      · rw [List.find?_cons_of_pos _ (by simp [hfk]),
          List.find?_cons_of_pos _ (by simp [hfk])]
      · rw [List.find?_cons_of_neg _ (by simp [hfk]),
          List.find?_cons_of_neg _ (by simp [hfk]), ih]

/-- Field lookup after one `setField`: the written key now maps to the
written value; every other key is unaffected. -/
theorem lookupField_setField (fields : List (String × String)) (k v key : String) :
    lookupField (setField fields (k, v)) key
      = if key = k then some v else lookupField fields key := by
  unfold lookupField
  by_cases hany : fields.any (fun f => f.1 = k)
  · have hset : setField fields (k, v)
        = fields.map (fun f => if f.1 = k then (k, v) else f) := by
      simp [setField, hany]
    rw [hset]
    by_cases hk : key = k
    · subst hk
      rw [if_pos rfl, find?_map_setField_same key v fields hany]
      rfl
    · rw [if_neg hk, find?_map_setField_other k v key hk fields]
  · have hset : setField fields (k, v) = fields ++ [(k, v)] := by
      simp [setField, hany]
    rw [hset, List.find?_append]
    by_cases hk : key = k
    · subst hk
      have hmem : ∀ y : String, (key, y) ∉ fields := by simpa using hany
      have hnone : fields.find? (fun f => f.1 = key) = none := by
        rw [List.find?_eq_none]
        rintro ⟨a, b⟩ hx hdec
        have ha : a = key := of_decide_eq_true hdec
        subst ha
        exact hmem b hx
      rw [if_pos rfl, hnone]
      simp [List.find?]
    · have hk' : ¬ k = key := fun h => hk h.symm
      have h2 : ([((k, v))] : List (String × String)).find? (fun f => f.1 = key)
          = none := by
        simp [List.find?, hk']
      rw [if_neg hk, h2]
      cases fields.find? (fun f => f.1 = key) <;> rfl

/-- Frame over the pass-through merge: a key mentioned by no update is
looked up unchanged. -/
theorem lookupField_foldl_frame (key : String) :
    ∀ (updates base : List (String × String)),
      (∀ kv ∈ updates, kv.1 ≠ key) →
      lookupField (updates.foldl setField base) key = lookupField base key := by
  intro updates
  induction updates with
  | nil => intro base _; rfl
  | cons u us ih =>
    intro base h
    rw [List.foldl_cons,
      ih (setField base u) (fun kv hkv => h kv (List.mem_cons_of_mem u hkv))]
    rcases u with ⟨uk, uv⟩
    rw [lookupField_setField base uk uv key,
      if_neg (fun hh => h (uk, uv) (List.mem_cons_self _ _) hh.symm)]

/-- Pass-through of the merge: an updated key (keys pairwise distinct)
is looked up as its submitted value. -/
theorem lookupField_foldl_mem (key v : String) :
    ∀ (updates base : List (String × String)),
      (updates.map Prod.fst).Nodup → (key, v) ∈ updates →
      lookupField (updates.foldl setField base) key = some v := by
  intro updates
  induction updates with
  | nil => intro base _ hmem; simp at hmem
  | cons u us ih =>
    intro base hnd hmem
    rw [List.foldl_cons]
    have hnd' : (u.1 ∉ us.map Prod.fst) ∧ (us.map Prod.fst).Nodup := by
      simpa [List.map_cons, List.nodup_cons] using hnd
    rcases List.mem_cons.mp hmem with heq | hmem'
    · have hu1 : u.1 = key := by rw [← heq]
      have hkeys : ∀ kv ∈ us, kv.1 ≠ key := by
        intro kv hkv hc
        apply hnd'.1
        rw [hu1, ← hc]
        exact List.mem_map_of_mem Prod.fst hkv
      have hbase : setField base u = setField base (key, v) := by rw [heq]
      rw [hbase, lookupField_foldl_frame key us _ hkeys,
        lookupField_setField base key v key, if_pos rfl]
    · exact ih (setField base u) hnd'.2 hmem'

/-- C4: updating an existing product replaces exactly the fields present
in the payload — an absent `price`, `productImage` or extra field is
left untouched, a present `name` is lower-cased, and every other
supplied field (`price`, `productImage`, extra pass-through fields)
passes through untransformed — and neither a new id nor a new
`expiryDate` is assigned. -/
theorem updateProductById_partial_fields (id : String) (req : UpdateRequest)
    (store : List ProductRecord) (p : ProductRecord)
    (hv : validateUpdate req.name req.price = [])
    (hfind : store.find? (fun q => q.id = id) = some p) :
    ∃ r, (updateProductById id req store none).1 = .ok r ∧
      (req.price = none → r.price = p.price) ∧
      (∀ v, req.price = some v → r.price = some v) ∧
      (∀ s, req.name = some s → s ≠ "" → r.name = jsToLowerCase s) ∧
      (req.name = none → r.name = p.name) ∧
      (req.bodyProductImage = none → r.productImage = p.productImage) ∧
      (∀ v, req.bodyProductImage = some v → r.productImage = some v) ∧
      (req.otherFields = [] → r.otherFields = p.otherFields) ∧
      (∀ key, (∀ kv ∈ req.otherFields, kv.1 ≠ key) →
        lookupField r.otherFields key = lookupField p.otherFields key) ∧
      ((req.otherFields.map Prod.fst).Nodup →
        ∀ key v, (key, v) ∈ req.otherFields →
          lookupField r.otherFields key = some v) ∧
      r.id = p.id ∧
      r.expiryDate = p.expiryDate := by
  refine ⟨applyUpdate p (transformUpdateData req),
    ?_, ?_, ?_, ?_, ?_, ?_, ?_, ?_, ?_, ?_, rfl, rfl⟩
  · simp [updateProductById, hv, hfind]
  · intro hp
    simp [applyUpdate, transformUpdateData, hp]
  · intro v hp
    simp [applyUpdate, transformUpdateData, hp]
  · intro s hn hs
    simp [applyUpdate, transformUpdateData, hn, hs]
  · intro hn
    simp [applyUpdate, transformUpdateData, hn]
  · intro hb
    simp [applyUpdate, transformUpdateData, hb]
  · intro v hb
    simp [applyUpdate, transformUpdateData, hb]
  · intro ho
    simp [applyUpdate, transformUpdateData, ho]
  · intro key hkey
    exact lookupField_foldl_frame key req.otherFields p.otherFields hkey
  · intro hnd key v hmem
    exact lookupField_foldl_mem key v req.otherFields p.otherFields hnd hmem

/-- Witness for `updateProductById_partial_fields`: updating
`{name: "Widget", size: "XL"}` on a stored product lower-cases the
name, passes the extra `size` field through, and leaves `price`,
`productImage`, the extra `color` field, `id` and `expiryDate`
untouched. -/
theorem updateProductById_partial_fields_witness :
    ∃ r, (updateProductById "p1" ⟨some "Widget", none, none, none, [("size", "XL")]⟩
        [⟨"p1", "chair", some "5", some "img.png", 3, 3, [("color", "red")]⟩]
        none).1 = .ok r ∧
      r.price = some "5" ∧ r.name = "widget" ∧
      r.productImage = some "img.png" ∧ r.id = "p1" ∧ r.expiryDate = 3 ∧
      lookupField r.otherFields "size" = some "XL" ∧
      lookupField r.otherFields "color" = some "red" := by
  obtain ⟨r, hok, hp, _, hn, _, hb, _, _, hframe, hmem, hid, hexp⟩ :=
    updateProductById_partial_fields "p1"
      ⟨some "Widget", none, none, none, [("size", "XL")]⟩
      [⟨"p1", "chair", some "5", some "img.png", 3, 3, [("color", "red")]⟩]
      ⟨"p1", "chair", some "5", some "img.png", 3, 3, [("color", "red")]⟩
      (by decide) (by decide)
  refine ⟨r, hok, hp rfl, ?_, hb rfl, hid, hexp, ?_, ?_⟩
  · rw [hn "Widget" rfl (by decide)]
    decide
  · exact hmem (by decide) "size" "XL" (by decide)
  · rw [hframe "color" (by decide)]
    decide

/-- C5: no update call, whatever its payload, changes the id of any
stored record (update-by-key store semantics; the handler never
generates or reassigns ids). -/
theorem updateProductById_preserves_ids (id : String) (req : UpdateRequest)
    (store : List ProductRecord) (storeFails : Option String) :
    ((updateProductById id req store storeFails).2).map (fun p => p.id)
      = store.map (fun p => p.id) := by
  by_cases he : validateUpdate req.name req.price = []
  · cases storeFails with
    | some msg => simp [updateProductById, he]
    | none =>
      cases hfind : store.find? (fun p => p.id = id) with
      | none => simp [updateProductById, he, hfind]
      | some p =>
        have hpid : p.id = id := by simpa using List.find?_some hfind
        simp [updateProductById, he, hfind]
        intro q _
        by_cases hq : q.id = id
        · simp [hq, applyUpdate, hpid]
        · simp [hq]
  · simp [updateProductById, he]

/-- C6: with the store operating normally, an id absent from the store
is answered with the distinct 404 not-found outcome (never 500), and a
present id is answered with 200 and the stored record. -/
theorem getProductById_cases (id : String) (store : List ProductRecord) :
    (store.find? (fun p => p.id = id) = none →
      getProductById id store none
          = .notFound "Product with the specified ID does not exist" ∧
      (getProductById id store none).status = 404 ∧
      (getProductById id store none).status ≠ 500) ∧
    (∀ p, store.find? (fun q => q.id = id) = some p →
      getProductById id store none = .ok p ∧
      (getProductById id store none).status = 200) := by
  constructor
  · intro h
    refine ⟨?_, ?_, ?_⟩ <;> simp [getProductById, h, GetResponse.status]
  · intro p h
    exact ⟨by simp [getProductById, h], by simp [getProductById, h, GetResponse.status]⟩

/-- Witness for `getProductById_cases`: an empty store answers 404, a
store holding the requested id answers 200 with the record. -/
theorem getProductById_cases_witness :
    getProductById "missing" [] none
        = .notFound "Product with the specified ID does not exist" ∧
    getProductById "p1" [⟨"p1", "chair", some "5", none, 3, 3, []⟩] none
        = .ok ⟨"p1", "chair", some "5", none, 3, 3, []⟩ :=
  ⟨((getProductById_cases "missing" []).1 rfl).1,
    ((getProductById_cases "p1" [⟨"p1", "chair", some "5", none, 3, 3, []⟩]).2
      ⟨"p1", "chair", some "5", none, 3, 3, []⟩ (by decide)).1⟩

/-- C7: deleting an id absent from the store is answered with the
generic 500 error outcome (message "Product not found"), not a distinct
404; a destroy affecting at least one row is answered with 204. -/
theorem deleteProductById_cases (id : String) (store : List ProductRecord) :
    ((∀ p ∈ store, p.id ≠ id) →
      (deleteProductById id store none).1 = .serverError "Product not found" ∧
      (deleteProductById id store none).1.status = 500 ∧
      (deleteProductById id store none).2 = store) ∧
    (0 < store.countP (fun p => p.id = id) →
      (deleteProductById id store none).1
          = .noContent "Product deleted successfully" ∧
      (deleteProductById id store none).1.status = 204) := by
  constructor
  · intro h
    have hc : store.countP (fun p => decide (p.id = id)) = 0 := by
      rw [List.countP_eq_zero]
      intro a ha
      simp [h a ha]
    refine ⟨?_, ?_, ?_⟩ <;> simp [deleteProductById, hc, DeleteResponse.status]
  · intro h
    have hc : ¬ store.countP (fun p => decide (p.id = id)) = 0 :=
      Nat.pos_iff_ne_zero.mp h
    refine ⟨?_, ?_⟩ <;> simp [deleteProductById, hc, DeleteResponse.status]

/-- Witness for `deleteProductById_cases`: deleting an unknown id yields
the 500 error outcome; deleting a present id yields 204. -/
theorem deleteProductById_cases_witness :
    (deleteProductById "missing" [⟨"p1", "chair", some "5", none, 3, 3, []⟩]
        none).1 = .serverError "Product not found" ∧
    (deleteProductById "p1" [⟨"p1", "chair", some "5", none, 3, 3, []⟩]
        none).1 = .noContent "Product deleted successfully" :=
  ⟨((deleteProductById_cases "missing"
      [⟨"p1", "chair", some "5", none, 3, 3, []⟩]).1 (by decide)).1,
    ((deleteProductById_cases "p1"
      [⟨"p1", "chair", some "5", none, 3, 3, []⟩]).2 (by decide)).1⟩

/-- C9: with the store operating normally, the list handler answers 200
with every stored product, ordered by `createdAt` descending (newest
first); a throwing store call is answered with 500 and the error
message. -/
theorem getAllProducts_ordered (store : List ProductRecord) (m : String) :
    (∃ l, getAllProducts store none = .ok l ∧ l.Perm store ∧
      l.Sorted byCreatedAtDesc) ∧
    getAllProducts store (some m) = .serverError m ∧
    (getAllProducts store (some m)).status = 500 :=
  ⟨⟨store.insertionSort byCreatedAtDesc, rfl,
      List.perm_insertionSort byCreatedAtDesc store,
      List.sorted_insertionSort byCreatedAtDesc store⟩, rfl, rfl⟩
